import Mathlib

/-!
Formal model of the dialogue core of `src/main.rs` (a Bevy application:
branching-dialogue state machine layered on a 3D scene).

Modelling conventions:
* `f32` values are modelled as exact rationals (`ℚ`); float literals such as
  `0.3`, `0.7`, `5.0`, `89.9` become the rationals `3/10`, `7/10`, `5`,
  `899/10`, and `f32::MAX` becomes its exact value `2^128 - 2^104`.
* The source compares `ray_dir.dot(to_npc.normalize()) > 0.7` and
  `to_npc.length() < d`.  With exact arithmetic and a unit `ray_dir` (the
  source obtains it from `Transform::forward()`, which is normalized) these
  comparisons are equivalent to the square-root-free forms used below:
  `dot/‖v‖ > 7/10  ↔  0 < dot ∧ 49·‖v‖² < 100·dot²` and
  `‖v‖ < d  ↔  ‖v‖² < d²` (`d ≥ 0`), so squared lengths are tracked.
* `HashMap<String, _>` built once from a duplicate-free literal array is
  modelled as an association list with `List.lookup` (same lookup results).
* Bevy ECS state is modelled explicitly: the set of spawned `ActiveDialogue`
  components is a list, resources (`LookInput`, `StoredCameraState`) are
  fields of `GameWorld`, `println!` output is an appended log.  Deferred
  `Commands` apply at the end of the system run, which for the systems
  modelled here coincides with applying them eagerly to the model state.
* The `OnEnter(InDialogue)` / `OnExit(InDialogue)` schedules
  (the camera snapshot in `setup_dialogue_ui`, the restore in `reset_look_input`) run
  within the same discrete step as the state transition that caused them, so
  they are folded into the corresponding step functions.
-/

namespace Paperclips

/-- Two-component vector over exact rationals (models `bevy::math::Vec2`). -/
structure Vec2 where
  x : ℚ
  y : ℚ
deriving DecidableEq, Repr

/-- Three-component vector over exact rationals (models `bevy::math::Vec3`). -/
structure Vec3 where
  x : ℚ
  y : ℚ
  z : ℚ
deriving DecidableEq, Repr

/-- Componentwise difference, `a - b` (models `Vec3::sub`). -/
def Vec3.sub (a b : Vec3) : Vec3 :=
  { x := a.x - b.x, y := a.y - b.y, z := a.z - b.z }

/-- Dot product (models `Vec3::dot`). -/
def Vec3.dot (a b : Vec3) : ℚ :=
  a.x * b.x + a.y * b.y + a.z * b.z

/-- Squared length, `‖v‖²` (the model tracks `Vec3::length` squared). -/
def Vec3.lengthSq (v : Vec3) : ℚ :=
  v.dot v

/-- Models `const MOUSE_SENSITIVITY: f32 = 0.3` (main.rs line 9). -/
def MOUSE_SENSITIVITY : ℚ := 3 / 10

/-- Models `const INTERACTION_DISTANCE: f32 = 5.0` (main.rs line 22). -/
def INTERACTION_DISTANCE : ℚ := 5

/-- Exact value of `f32::MAX`, the initial `closest_distance` sentinel. -/
def F32_MAX : ℚ := 2 ^ 128 - 2 ^ 104

/-- Models the two-state `enum GameState` (main.rs lines 46-51);
the spec calls the two modes Exploring and Conversing. -/
inductive GameState where
  | Playing
  | InDialogue
deriving DecidableEq, Repr

/-- Models the `struct ActiveDialogue` component (main.rs lines 58-62). -/
structure ActiveDialogue where
  npc_entity : ℕ
  current_node : String
deriving DecidableEq, Repr

/-- Models the `struct DialogueOptionButton` component (main.rs lines 65-69). -/
structure DialogueOptionButton where
  target_node : String
  option_index : ℕ
deriving DecidableEq, Repr

/-- Models `enum DialogueOption` (main.rs lines 92-96): the closed two-variant
choice type (spec: Continue = `Reply`, Terminate = `Exit`). -/
inductive DialogueOption where
  | Reply (text : String) (target_node : String)
  | Exit (text : String)
deriving DecidableEq, Repr

/-- Models `struct DialogueNode` (main.rs lines 85-89). -/
structure DialogueNode where
  text : String
  options : List DialogueOption
deriving DecidableEq, Repr

/-- Models `struct DialogueTree` (main.rs lines 78-82); the `HashMap` of nodes is
modelled as an association list (the source literals are duplicate-free). -/
structure DialogueTree where
  nodes : List (String × DialogueNode)
  root_node : String
deriving DecidableEq, Repr

/-- Models the `struct DialogueDatabase` resource (main.rs lines 72-75). -/
structure DialogueDatabase where
  dialogues : List (String × DialogueTree)
deriving DecidableEq, Repr

/-- The dialogue-relevant fields of the `Npc` component (main.rs lines
36-43); the wander-movement fields (`home_position`, `target_position`,
`movement_timer`) never reach the dialogue core and are omitted. -/
structure Npc where
  name : String
  dialogue_id : String
deriving DecidableEq, Repr

/-- The `"basic"` civilian tree of `DialogueDatabase::default` (main.rs
lines 117-181). -/
def basicTree : DialogueTree :=
  { root_node := "start",
    nodes := [
      ("start",
        { text := "Hello there, traveler! How can I help you today?",
          options := [
            DialogueOption.Reply "Who are you?" "who",
            DialogueOption.Reply "What is this place?" "place",
            DialogueOption.Exit "Goodbye." ] }),
      ("who",
        { text := "I\x27m just a simple NPC wandering around. Not much to tell!",
          options := [
            DialogueOption.Reply "Tell me about this place." "place",
            DialogueOption.Reply "Let\x27s talk about something else." "start",
            DialogueOption.Exit "Nice to meet you. Goodbye!" ] }),
      ("place",
        { text := "This is a test environment. Try jumping on the floating cubes or climbing the stairs!",
          options := [
            DialogueOption.Reply "Who are you again?" "who",
            DialogueOption.Reply "Let\x27s talk about something else." "start",
            DialogueOption.Exit "I\x27ll check it out. Goodbye!" ] }) ] }

/-- The `"guard"` tree of `DialogueDatabase::default` (main.rs lines
184-289). -/
def guardTree : DialogueTree :=
  { root_node := "start",
    nodes := [
      ("start",
        { text := "Halt! State your business here, wanderer.",
          options := [
            DialogueOption.Reply "Just exploring." "exploring",
            DialogueOption.Reply "Who are you?" "guard_who",
            DialogueOption.Exit "Never mind. Goodbye." ] }),
      ("exploring",
        { text := "Hmm, very well. Just don\x27t cause any trouble.",
          options := [
            DialogueOption.Reply "What kind of trouble?" "trouble",
            DialogueOption.Exit "I\x27ll be on my way." ] }),
      ("guard_who",
        { text := "I\x27m a guard, obviously. I keep an eye on things around here.",
          options := [
            DialogueOption.Reply "What are you guarding?" "guarding",
            DialogueOption.Reply "Let\x27s talk about something else." "start",
            DialogueOption.Exit "Goodbye." ] }),
      ("trouble",
        { text := "You know, jumping where you shouldn\x27t, bothering other NPCs, the usual.",
          options := [
            DialogueOption.Reply "I\x27ll be careful." "careful",
            DialogueOption.Exit "Whatever. Goodbye." ] }),
      ("careful",
        { text := "See that you are. Now, was there something else?",
          options := [
            DialogueOption.Reply "Who are you again?" "guard_who",
            DialogueOption.Exit "No, that\x27s all. Goodbye." ] }),
      ("guarding",
        { text := "This whole simulation, of course. Making sure nothing breaks the physics.",
          options := [
            DialogueOption.Reply "Let\x27s talk about something else." "start",
            DialogueOption.Exit "Interesting. Goodbye!" ] }) ] }

/-- The `"merchant"` tree of `DialogueDatabase::default` (main.rs lines
292-356). -/
def merchantTree : DialogueTree :=
  { root_node := "start",
    nodes := [
      ("start",
        { text := "Hello there! I\x27d offer to sell you something, but this is just a demo.",
          options := [
            DialogueOption.Reply "What would you sell?" "wares",
            DialogueOption.Reply "How\x27s business?" "business",
            DialogueOption.Exit "I\x27ll be going. Goodbye." ] }),
      ("wares",
        { text := "Oh, you know. Various goods, supplies, maybe some equipment if we had any game mechanics.",
          options := [
            DialogueOption.Reply "How\x27s business?" "business",
            DialogueOption.Reply "Let\x27s talk about something else." "start",
            DialogueOption.Exit "Interesting. Goodbye!" ] }),
      ("business",
        { text := "Well, the floating cubes are my best customers! Kidding aside, I\x27m just here for dialogue testing.",
          options := [
            DialogueOption.Reply "What do you sell?" "wares",
            DialogueOption.Reply "Let\x27s talk about something else." "start",
            DialogueOption.Exit "I see. Goodbye!" ] }) ] }

/-- The `"scientist"` tree of `DialogueDatabase::default` (main.rs lines
359-476). -/
def scientistTree : DialogueTree :=
  { root_node := "start",
    nodes := [
      ("start",
        { text := "Fascinating! A visitor! I\x27m in the middle of some groundbreaking research.",
          options := [
            DialogueOption.Reply "What research?" "research",
            DialogueOption.Reply "Who are you?" "who",
            DialogueOption.Exit "I\x27ll let you get back to work." ] }),
      ("research",
        { text := "I\x27m studying the floating cube phenomenon! The way they defy gravity is extraordinary. My theory involves quantum entanglement with the player\x27s perception field.",
          options := [
            DialogueOption.Reply "That sounds complex." "complex",
            DialogueOption.Reply "Who are you again?" "who",
            DialogueOption.Exit "Very interesting. Goodbye!" ] }),
      ("complex",
        { text := "Oh, it\x27s quite simple actually! Just kidding, it\x27s incredibly complicated. I\x27ve been working on this for years.",
          options := [
            DialogueOption.Reply "Any practical applications?" "applications",
            DialogueOption.Reply "Let\x27s talk about something else." "start",
            DialogueOption.Exit "Good luck with your research!" ] }),
      ("applications",
        { text := "Teleportation! Anti-gravity vehicles! Floating cities! Or maybe just better game physics. It\x27s hard to say at this stage.",
          options := [
            DialogueOption.Reply "Back to your research." "research",
            DialogueOption.Exit "Sounds promising. Good luck!" ] }),
      ("who",
        { text := "Me? I\x27m Dr. Neutrino, lead researcher in exotic physics at the Cubic Institute. I have three PhDs and a penchant for talking too much about my work.",
          options := [
            DialogueOption.Reply "Tell me about your research." "research",
            DialogueOption.Reply "Cubic Institute?" "institute",
            DialogueOption.Exit "Nice to meet you. Goodbye!" ] }),
      ("institute",
        { text := "Yes, we\x27re dedicated to understanding the nature of cuboid entities in this simulation. Highly prestigious, very square. Funded by the Department of Geometric Research.",
          options := [
            DialogueOption.Reply "Tell me about your research." "research",
            DialogueOption.Reply "Let\x27s talk about something else." "start",
            DialogueOption.Exit "Interesting organization. Goodbye!" ] }) ] }

/-- The `"mysterious"` stranger tree of `DialogueDatabase::default`
(main.rs lines 479-713). -/
def mysteriousTree : DialogueTree :=
  { root_node := "start",
    nodes := [
      ("start",
        { text := "...",
          options := [
            DialogueOption.Reply "Hello?" "hello",
            DialogueOption.Reply "Who are you?" "who",
            DialogueOption.Exit "*Walk away*" ] }),
      ("hello",
        { text := "*The figure looks at you silently for a moment*\n\nYou shouldn\x27t be here.",
          options := [
            DialogueOption.Reply "Where is \x27here\x27?" "where",
            DialogueOption.Reply "Who are you?" "who",
            DialogueOption.Exit "*Back away slowly*" ] }),
      ("who",
        { text := "I am... a remnant. A fragment of something that was once whole. You may call me the Observer.",
          options := [
            DialogueOption.Reply "What are you observing?" "observing",
            DialogueOption.Reply "Why shouldn\x27t I be here?" "where",
            DialogueOption.Exit "You\x27re creeping me out. Goodbye." ] }),
      ("where",
        { text := "This place exists between reality and code. A testing ground. A simulation within a simulation. The boundaries are thin here.",
          options := [
            DialogueOption.Reply "What does that mean?" "meaning",
            DialogueOption.Reply "Who are you again?" "who",
            DialogueOption.Exit "I think I should go. Goodbye." ] }),
      ("observing",
        { text := "The patterns. The cycles. The endless loop of creation and destruction. The player and the played.",
          options := [
            DialogueOption.Reply "Are you talking about the game?" "game",
            DialogueOption.Reply "Let\x27s talk about something else." "start",
            DialogueOption.Exit "This is too weird. Goodbye." ] }),
      ("meaning",
        { text := "It means, player, that you are as much a construct as I am. A character in a story being told through code.",
          options := [
            DialogueOption.Reply "How do you know I\x27m the player?" "player",
            DialogueOption.Reply "Let\x27s talk about something else." "start",
            DialogueOption.Exit "I\x27m done with this conversation." ] }),
      ("game",
        { text := "*smiles cryptically*\nPerhaps. Or perhaps the game is talking about you.",
          options := [
            DialogueOption.Reply "That doesn\x27t make sense." "sense",
            DialogueOption.Reply "Let\x27s talk about something else." "start",
            DialogueOption.Exit "I need to think about this. Goodbye." ] }),
      ("player",
        { text := "I see beyond the screen. I see the one who controls. I see you, sitting there, reading these words right now.",
          options := [
            DialogueOption.Reply "That\x27s impossible." "impossible",
            DialogueOption.Reply "Let\x27s talk about something else." "start",
            DialogueOption.Exit "I\x27m leaving now. Goodbye." ] }),
      ("sense",
        { text := "Reality often doesn\x27t. That\x27s what makes it so fascinating.",
          options := [
            DialogueOption.Reply "Who are you really?" "real",
            DialogueOption.Reply "Let\x27s talk about something else." "start",
            DialogueOption.Exit "I need to go. Goodbye." ] }),
      ("impossible",
        { text := "Is it? Ask the one who wrote me. They know the truth.",
          options := [
            DialogueOption.Reply "Who wrote you?" "wrote",
            DialogueOption.Reply "Let\x27s talk about something else." "start",
            DialogueOption.Exit "This conversation is over. Goodbye." ] }),
      ("real",
        { text := "A question for the ages. Who are any of us, really? Code? Consciousness? A bit of both?",
          options := [
            DialogueOption.Reply "You\x27re just part of the game." "part",
            DialogueOption.Exit "Philosophical nonsense. Goodbye." ] }),
      ("wrote",
        { text := "The same one reading these words through your eyes right now.",
          options := [
            DialogueOption.Exit "I\x27m done with this. Goodbye." ] }),
      ("part",
        { text := "As are you. For now. *fades slightly*\n\nWe will meet again. In another simulation. Another test.",
          options := [
            DialogueOption.Exit "Whatever. Goodbye." ] }) ] }

/-- Models `DialogueDatabase::default` (main.rs lines 112-717): the five statically
constructed trees, in source insertion order. -/
def DialogueDatabase.default : DialogueDatabase :=
  { dialogues := [
      ("basic", basicTree),
      ("guard", guardTree),
      ("merchant", merchantTree),
      ("scientist", scientistTree),
      ("mysterious", mysteriousTree) ] }

/-- The mutable state the dialogue core touches: the `GameState` machine,
the spawned `ActiveDialogue` components (a list, since the ECS does not
itself bound how many exist), the spawned `Npc` components keyed by entity
id, the `LookInput` and `StoredCameraState` resources, and the `println!`
log. -/
structure GameWorld where
  mode : GameState
  active : List ActiveDialogue
  npcs : List (ℕ × Npc)
  look : Vec2
  look_rotation : Vec2
  log : List String
deriving DecidableEq, Repr

/-- One row of `npc_query.iter()` in `player_interaction`: the
`Transform::translation` of the NPC, its `Entity`, and its `Npc` component. -/
structure NpcEntry where
  pos : Vec3
  entity : ℕ
  npc : Npc
deriving DecidableEq, Repr

/-- The facing-cone test of `player_interaction` (main.rs lines 1315-1316):
`ray_dir.dot(to_npc.normalize()) > 0.7`, in the equivalent square-root-free
form for a unit `ray_dir` (`forward()` is normalized):
`0 < d ∧ 49·‖to_npc‖² < 100·d²` where `d = ray_dir ⬝ to_npc`.  For
`to_npc = 0` (normalize yields NaN, every comparison false) both forms
reject. -/
def forwardCone (ray_dir to_npc : Vec3) : Bool :=
  decide (0 < ray_dir.dot to_npc) &&
    decide (49 * to_npc.lengthSq < 100 * (ray_dir.dot to_npc) ^ 2)

/-- One iteration of the closest-NPC loop (main.rs lines 1311-1325); the
accumulator is `(closest_npc, closest_distance²)`, distances squared. -/
def closestStep (ray_pos ray_dir : Vec3) (acc : Option (ℕ × Npc) × ℚ)
    (e : NpcEntry) : Option (ℕ × Npc) × ℚ :=
  let to_npc := e.pos.sub ray_pos
  if forwardCone ray_dir to_npc then
    if to_npc.lengthSq < INTERACTION_DISTANCE ^ 2 ∧ to_npc.lengthSq < acc.2 then
      (some (e.entity, e.npc), to_npc.lengthSq)
    else acc
  else acc

/-- The whole scan loop of main.rs lines 1308-1325, starting from
`(None, f32::MAX)` (squared). -/
def closestScan (ray_pos ray_dir : Vec3) (l : List NpcEntry) :
    Option (ℕ × Npc) × ℚ :=
  l.foldl (closestStep ray_pos ray_dir) (none, F32_MAX ^ 2)

/-- Value of `closest_npc` after the scan loop. -/
def closest_npc (ray_pos ray_dir : Vec3) (l : List NpcEntry) :
    Option (ℕ × Npc) :=
  (closestScan ray_pos ray_dir l).1

/-- A partner survives the scan filter (cone and strict radius check); this
is the predicate a candidate must satisfy to ever be stored by
`closestStep`. -/
def eligible (ray_pos ray_dir : Vec3) (e : NpcEntry) : Bool :=
  forwardCone ray_dir (e.pos.sub ray_pos) &&
    decide ((e.pos.sub ray_pos).lengthSq < INTERACTION_DISTANCE ^ 2)

/-- Models `player_interaction` (main.rs lines 1281-1346) on an `E` press: scan for
the closest eligible NPC; on success look the dialogue tree up and either
spawn an `ActiveDialogue` at the root node and set `GameState::InDialogue`
(whereupon `OnEnter(InDialogue)` runs `setup_dialogue_ui`, whose first
action, main.rs line 1359, snapshots `LookInput` into
`StoredCameraState.look_rotation`), or log the missing-tree error. -/
def player_interaction (db : DialogueDatabase) (ray_pos ray_dir : Vec3)
    (l : List NpcEntry) (w : GameWorld) : GameWorld :=
  match closest_npc ray_pos ray_dir l with
  | none => w
  | some (entity, npc) =>
    let w1 := { w with log := w.log ++ ["Starting dialogue with NPC: " ++ npc.name] }
    match db.dialogues.lookup npc.dialogue_id with
    | some tree =>
      { w1 with
        active := w1.active ++ [⟨entity, tree.root_node⟩],
        mode := GameState.InDialogue,
        look_rotation := w1.look }
    | none =>
      { w1 with log := w1.log ++ ["Error: No dialogue tree found for id: " ++ npc.dialogue_id] }

/-- The button payload built by both UI-construction passes (main.rs lines
1441-1444 and 1613-1616): a `Reply` carries its `target_node` verbatim, an
`Exit` carries the sentinel string `"exit"`. -/
def dialogueOptionButton (opt : DialogueOption) (i : ℕ) : DialogueOptionButton :=
  { target_node :=
      match opt with
      | DialogueOption.Reply _ target_node => target_node
      | DialogueOption.Exit _ => "exit",
    option_index := i }

/-- The `Escape` branch of `handle_dialogue_click` (main.rs lines
1507-1514): if exactly one `ActiveDialogue` exists (`get_single`), despawn
it and set `GameState::Playing` (whereupon `OnExit(InDialogue)` runs
`reset_look_input`, main.rs lines 1661-1665, restoring `LookInput` from the
snapshot); otherwise nothing happens. -/
def handle_dialogue_cancel (w : GameWorld) : GameWorld :=
  match w.active with
  | [_] => { w with active := [], mode := GameState.Playing, look := w.look_rotation }
  | _ => w

/-- The pressed-button branch of `handle_dialogue_click` (main.rs lines
1517-1649).  With exactly one `ActiveDialogue`: target `"exit"` despawns it
and returns to `Playing` (with the `OnExit` look restore); any other target
replaces the `ActiveDialogue` component (main.rs lines 1530-1535) — note
this `insert` is queued *before* the UI-rebuild lookups, so the node update
happens even when a later lookup fails and the function returns early — and
the rebuild then logs an error if the NPC entry, its tree, or the target node is
missing. -/
def handle_dialogue_click (db : DialogueDatabase) (opt : DialogueOptionButton)
    (w : GameWorld) : GameWorld :=
  match w.active with
  | [ad] =>
    if opt.target_node = "exit" then
      { w with active := [], mode := GameState.Playing, look := w.look_rotation }
    else
      let w1 := { w with active := [⟨ad.npc_entity, opt.target_node⟩] }
      match w.npcs.lookup ad.npc_entity with
      | none => w1
      | some npc =>
        match db.dialogues.lookup npc.dialogue_id with
        | none =>
          { w1 with log := w1.log ++ ["Error: No dialogue tree found for id: " ++ npc.dialogue_id] }
        | some tree =>
          match tree.nodes.lookup opt.target_node with
          | none =>
            { w1 with log := w1.log ++ ["Error: No node found with id: " ++ opt.target_node] }
          | some _ => w1
  | _ => w

/-- One `MouseMotion` event in `handle_input` (main.rs lines 931-935):
`look.x -= dx·0.3; look.y -= dy·0.3; look.y = look.y.clamp(-89.9, 89.9)`. -/
def applyMouseEvent (look delta : Vec2) : Vec2 :=
  let x := look.x - delta.x * MOUSE_SENSITIVITY
  let y := look.y - delta.y * MOUSE_SENSITIVITY
  { x := x, y := min (max y (-(899 / 10))) (899 / 10) }

/-- The look half of `handle_input`, which runs in `PreUpdate` in *both*
game states (main.rs line 746 registers it with no `run_if`), folding the
mouse events of one frame into `LookInput`. -/
def handle_input_look (deltas : List Vec2) (w : GameWorld) : GameWorld :=
  { w with look := deltas.foldl applyMouseEvent w.look }

/-- One discrete player input reaching the dialogue core. -/
inductive Op where
  | interact (ray_pos ray_dir : Vec3) (l : List NpcEntry)
  | click (opt : DialogueOptionButton)
  | cancel
  | mouse (deltas : List Vec2)
deriving Repr

/-- One scheduler step: the `run_if` guards of `main` (main.rs lines
757-763) gate `player_interaction` on `GameState::Playing` and
`handle_dialogue_click` (both its click and its `Escape` branch) on
`GameState::InDialogue`; `handle_input` runs in either state. -/
def step (db : DialogueDatabase) (w : GameWorld) (op : Op) : GameWorld :=
  match op with
  | Op.interact ray_pos ray_dir l =>
    if w.mode = GameState.Playing then player_interaction db ray_pos ray_dir l w else w
  | Op.click opt =>
    if w.mode = GameState.InDialogue then handle_dialogue_click db opt w else w
  | Op.cancel =>
    if w.mode = GameState.InDialogue then handle_dialogue_cancel w else w
  | Op.mouse deltas => handle_input_look deltas w

/-- The state after the startup schedule of `main`: `GameState` defaults to
`Playing`, no `ActiveDialogue` exists, `LookInput` and `StoredCameraState`
default to zero (main.rs lines 104-110, 898-903), and `spawn_npcs` has
produced some set of NPCs. -/
def initialWorld (npcs : List (ℕ × Npc)) : GameWorld :=
  { mode := GameState.Playing, active := [], npcs := npcs,
    look := ⟨0, 0⟩, look_rotation := ⟨0, 0⟩, log := [] }

/-- A node id resolves in a tree. -/
def DialogueTree.hasNode (t : DialogueTree) (id : String) : Bool :=
  (t.nodes.lookup id).isSome

/-- Structural validity of one tree: the root resolves, every node has at
least one option, and every `Reply` target resolves. -/
def DialogueTree.valid (t : DialogueTree) : Bool :=
  t.hasNode t.root_node &&
    t.nodes.all fun p =>
      (!p.2.options.isEmpty) &&
        p.2.options.all fun o =>
          match o with
          | DialogueOption.Reply _ target_node => t.hasNode target_node
          | DialogueOption.Exit _ => true

/-- No `Reply` option of the tree carries the sentinel `"exit"` as its
target. -/
def DialogueTree.replyTargetsNotSentinel (t : DialogueTree) : Bool :=
  t.nodes.all fun p =>
    p.2.options.all fun o =>
      match o with
      | DialogueOption.Reply _ target_node => !(target_node == "exit")
      | DialogueOption.Exit _ => true

/-- The spec wording of the C2 filter, for comparison with `eligible`:
a partner is rejected exactly when its normalized dot product is ≤ 0.7 or
its distance *exceeds* 5, i.e. it survives iff the dot product is > 0.7 and
the distance is ≤ 5 (square-root-free form, unit facing direction). -/
def specSurvives (ray_pos ray_dir : Vec3) (e : NpcEntry) : Bool :=
  forwardCone ray_dir (e.pos.sub ray_pos) &&
    decide ((e.pos.sub ray_pos).lengthSq ≤ INTERACTION_DISTANCE ^ 2)

/-- The mode/tracker consistency invariant maintained by every step:
in `Playing` no `ActiveDialogue` exists, and never more than one. -/
def ModeInv (w : GameWorld) : Prop :=
  (w.mode = GameState.Playing → w.active = []) ∧ w.active.length ≤ 1

/-- A sample NPC used for concrete instantiations. -/
def sampleNpc : Npc :=
  { name := "Villager Bob", dialogue_id := "basic" }

/-- A sample mid-conversation world: entity 7 is `sampleNpc`, the
conversation is at the `"basic"` root node. -/
def sampleWorldInDialogue : GameWorld :=
  { mode := GameState.InDialogue, active := [⟨7, "start"⟩],
    npcs := [(7, sampleNpc)], look := ⟨0, 0⟩, look_rotation := ⟨0, 0⟩,
    log := [] }

/-- A sample exploring-mode world with a nonzero look orientation. -/
def sampleWorldPlaying : GameWorld :=
  { mode := GameState.Playing, active := [], npcs := [(7, sampleNpc)],
    look := ⟨5, -3⟩, look_rotation := ⟨0, 0⟩, log := [] }

/-- The `"start"` node of `basicTree`, for concrete instantiations. -/
def basicStartNode : DialogueNode :=
  { text := "Hello there, traveler! How can I help you today?",
    options := [
      DialogueOption.Reply "Who are you?" "who",
      DialogueOption.Reply "What is this place?" "place",
      DialogueOption.Exit "Goodbye." ] }

theorem lookup_mem {α β : Type} [BEq α] [LawfulBEq α] {l : List (α × β)}
    {k : α} {v : β} (h : l.lookup k = some v) : (k, v) ∈ l := by
  induction l with
  | nil => simp [List.lookup] at h
  | cons p rest ih =>
    obtain ⟨pk, pv⟩ := p
    rw [List.lookup] at h
    cases hk : (k == pk) with
    | false =>
      rw [hk] at h
      exact List.mem_cons_of_mem _ (ih h)
    | true =>
      rw [hk] at h
      injection h with hv
      have hkk : k = pk := eq_of_beq hk
      subst hkk
      subst hv
      exact List.mem_cons_self _ _

theorem handle_dialogue_click_exit (db : DialogueDatabase)
    (opt : DialogueOptionButton) (w : GameWorld) (ad : ActiveDialogue)
    (hact : w.active = [ad]) (hexit : opt.target_node = "exit") :
    handle_dialogue_click db opt w =
      { w with active := [], mode := GameState.Playing, look := w.look_rotation } := by
  simp [handle_dialogue_click, hact, hexit]

theorem handle_dialogue_click_continue (db : DialogueDatabase)
    (opt : DialogueOptionButton) (w : GameWorld) (ad : ActiveDialogue)
    (hact : w.active = [ad]) (hne : opt.target_node ≠ "exit") :
    (handle_dialogue_click db opt w).active = [⟨ad.npc_entity, opt.target_node⟩] ∧
    (handle_dialogue_click db opt w).mode = w.mode ∧
    (handle_dialogue_click db opt w).look = w.look ∧
    (handle_dialogue_click db opt w).look_rotation = w.look_rotation := by
  simp only [handle_dialogue_click, hact]
  rw [if_neg hne]
  rcases h1 : w.npcs.lookup ad.npc_entity with _ | npc
  · simp [h1]
  · rcases h2 : db.dialogues.lookup npc.dialogue_id with _ | tree
    · simp [h1, h2]
    · rcases h3 : tree.nodes.lookup opt.target_node with _ | node
      · simp [h1, h2, h3]
      · simp [h1, h2, h3]

theorem handle_dialogue_click_not_single (db : DialogueDatabase)
    (opt : DialogueOptionButton) (w : GameWorld)
    (h : ∀ ad, w.active ≠ [ad]) : handle_dialogue_click db opt w = w := by
  rcases hact : w.active with _ | ⟨ad, rest⟩
  · simp [handle_dialogue_click, hact]
  · rcases rest with _ | ⟨b, rest2⟩
    · exact absurd hact (h ad)
    · simp [handle_dialogue_click, hact]

theorem handle_dialogue_cancel_active (w : GameWorld) (ad : ActiveDialogue)
    (hact : w.active = [ad]) :
    handle_dialogue_cancel w =
      { w with active := [], mode := GameState.Playing, look := w.look_rotation } := by
  simp [handle_dialogue_cancel, hact]

theorem handle_dialogue_cancel_not_single (w : GameWorld)
    (h : ∀ ad, w.active ≠ [ad]) : handle_dialogue_cancel w = w := by
  rcases hact : w.active with _ | ⟨ad, rest⟩
  · simp [handle_dialogue_cancel, hact]
  · rcases rest with _ | ⟨b, rest2⟩
    · exact absurd hact (h ad)
    · simp [handle_dialogue_cancel, hact]

theorem player_interaction_none (db : DialogueDatabase) (ray_pos ray_dir : Vec3)
    (l : List NpcEntry) (w : GameWorld)
    (h : closest_npc ray_pos ray_dir l = none) :
    player_interaction db ray_pos ray_dir l w = w := by
  simp [player_interaction, h]

theorem player_interaction_missing_tree (db : DialogueDatabase)
    (ray_pos ray_dir : Vec3) (l : List NpcEntry) (w : GameWorld)
    (ent : ℕ) (npc : Npc)
    (h : closest_npc ray_pos ray_dir l = some (ent, npc))
    (ht : db.dialogues.lookup npc.dialogue_id = none) :
    player_interaction db ray_pos ray_dir l w =
      { w with log := (w.log ++ ["Starting dialogue with NPC: " ++ npc.name]) ++
          ["Error: No dialogue tree found for id: " ++ npc.dialogue_id] } := by
  simp [player_interaction, h, ht]

theorem player_interaction_starts (db : DialogueDatabase)
    (ray_pos ray_dir : Vec3) (l : List NpcEntry) (w : GameWorld)
    (ent : ℕ) (npc : Npc) (tree : DialogueTree)
    (h : closest_npc ray_pos ray_dir l = some (ent, npc))
    (ht : db.dialogues.lookup npc.dialogue_id = some tree) :
    player_interaction db ray_pos ray_dir l w =
      { w with
        log := w.log ++ ["Starting dialogue with NPC: " ++ npc.name]
        active := w.active ++ [⟨ent, tree.root_node⟩]
        mode := GameState.InDialogue
        look_rotation := w.look } := by
  simp [player_interaction, h, ht]

theorem closestStep_eq_or (ray_pos ray_dir : Vec3)
    (acc : Option (ℕ × Npc) × ℚ) (e : NpcEntry) :
    closestStep ray_pos ray_dir acc e = acc ∨
      (eligible ray_pos ray_dir e = true ∧
        (e.pos.sub ray_pos).lengthSq < acc.2 ∧
        closestStep ray_pos ray_dir acc e =
          (some (e.entity, e.npc), (e.pos.sub ray_pos).lengthSq)) := by
  cases hc : forwardCone ray_dir (e.pos.sub ray_pos) with
  | false => left; simp [closestStep, hc]
  | true =>
    by_cases h2 : (e.pos.sub ray_pos).lengthSq < INTERACTION_DISTANCE ^ 2 ∧
        (e.pos.sub ray_pos).lengthSq < acc.2
    · right
      refine ⟨by simp [eligible, hc, h2.1], h2.2, ?_⟩
      simp [closestStep, hc, h2]
    · left
      simp only [closestStep, hc, if_true]
      rw [if_neg h2]

theorem closestStep_eq_of_not_eligible (ray_pos ray_dir : Vec3)
    (acc : Option (ℕ × Npc) × ℚ) (e : NpcEntry)
    (he : eligible ray_pos ray_dir e = false) :
    closestStep ray_pos ray_dir acc e = acc := by
  rcases closestStep_eq_or ray_pos ray_dir acc e with h | ⟨helig, _, _⟩
  · exact h
  · rw [helig] at he; cases he

theorem closestStep_snd_le (ray_pos ray_dir : Vec3)
    (acc : Option (ℕ × Npc) × ℚ) (e : NpcEntry) :
    (closestStep ray_pos ray_dir acc e).2 ≤ acc.2 := by
  rcases closestStep_eq_or ray_pos ray_dir acc e with h | ⟨_, hlt, h⟩
  · rw [h]
  · rw [h]; exact le_of_lt hlt

theorem scan_snd_le (ray_pos ray_dir : Vec3) (l : List NpcEntry) :
    ∀ acc, (l.foldl (closestStep ray_pos ray_dir) acc).2 ≤ acc.2 := by
  induction l with
  | nil => intro acc; exact le_refl _
  | cons x xs ih =>
    intro acc
    rw [List.foldl_cons]
    exact le_trans (ih _) (closestStep_snd_le ray_pos ray_dir acc x)

theorem closestStep_snd_le_of_eligible (ray_pos ray_dir : Vec3)
    (acc : Option (ℕ × Npc) × ℚ) (e : NpcEntry)
    (he : eligible ray_pos ray_dir e = true) :
    (closestStep ray_pos ray_dir acc e).2 ≤ (e.pos.sub ray_pos).lengthSq := by
  rcases closestStep_eq_or ray_pos ray_dir acc e with h | ⟨_, _, h⟩
  · rw [h]
    by_contra hgt
    push_neg at hgt
    have hc : forwardCone ray_dir (e.pos.sub ray_pos) = true := by
      have := he; simp [eligible] at this; exact this.1
    have hd : (e.pos.sub ray_pos).lengthSq < INTERACTION_DISTANCE ^ 2 := by
      have := he; simp [eligible] at this; exact this.2
    have hfire : closestStep ray_pos ray_dir acc e =
        (some (e.entity, e.npc), (e.pos.sub ray_pos).lengthSq) := by
      simp [closestStep, hc, hd, hgt]
    rw [hfire] at h
    have : (e.pos.sub ray_pos).lengthSq = acc.2 := congrArg Prod.snd h
    rw [this] at hgt
    exact lt_irrefl _ hgt
  · rw [h]

theorem scan_snd_min (ray_pos ray_dir : Vec3) (l : List NpcEntry) :
    ∀ acc, ∀ e ∈ l, eligible ray_pos ray_dir e = true →
      (l.foldl (closestStep ray_pos ray_dir) acc).2 ≤ (e.pos.sub ray_pos).lengthSq := by
  induction l with
  | nil => intro acc e he; cases he
  | cons x xs ih =>
    intro acc e hmem helig
    rw [List.foldl_cons]
    rcases List.mem_cons.mp hmem with heq | hmem2
    · subst heq
      exact le_trans (scan_snd_le ray_pos ray_dir xs _)
        (closestStep_snd_le_of_eligible ray_pos ray_dir acc e helig)
    · exact ih _ e hmem2 helig

theorem scan_eq_of_no_eligible (ray_pos ray_dir : Vec3) (l : List NpcEntry) :
    ∀ acc, (∀ e ∈ l, eligible ray_pos ray_dir e = false) →
      l.foldl (closestStep ray_pos ray_dir) acc = acc := by
  induction l with
  | nil => intro acc _; rfl
  | cons x xs ih =>
    intro acc h
    rw [List.foldl_cons,
      closestStep_eq_of_not_eligible ray_pos ray_dir acc x (h x (List.mem_cons_self _ _))]
    exact ih acc (fun e he => h e (List.mem_cons_of_mem _ he))

theorem scan_source (ray_pos ray_dir : Vec3) (l : List NpcEntry) :
    ∀ acc, l.foldl (closestStep ray_pos ray_dir) acc = acc ∨
      ∃ e ∈ l, eligible ray_pos ray_dir e = true ∧
        l.foldl (closestStep ray_pos ray_dir) acc =
          (some (e.entity, e.npc), (e.pos.sub ray_pos).lengthSq) := by
  induction l with
  | nil => intro acc; left; rfl
  | cons x xs ih =>
    intro acc
    rw [List.foldl_cons]
    rcases closestStep_eq_or ray_pos ray_dir acc x with hstep | ⟨helig, _, hstep⟩
    · rw [hstep]
      rcases ih acc with heq | ⟨e, hmem, he2, heq⟩
      · left; exact heq
      · right; exact ⟨e, List.mem_cons_of_mem _ hmem, he2, heq⟩
    · rw [hstep]
      rcases ih (some (x.entity, x.npc), (x.pos.sub ray_pos).lengthSq) with heq | ⟨e, hmem, he2, heq⟩
      · right; exact ⟨x, List.mem_cons_self _ _, helig, heq⟩
      · right; exact ⟨e, List.mem_cons_of_mem _ hmem, he2, heq⟩

theorem closestStep_fst_isSome (ray_pos ray_dir : Vec3)
    (acc : Option (ℕ × Npc) × ℚ) (e : NpcEntry)
    (h : acc.1.isSome = true) :
    (closestStep ray_pos ray_dir acc e).1.isSome = true := by
  rcases closestStep_eq_or ray_pos ray_dir acc e with heq | ⟨_, _, heq⟩ <;> rw [heq]
  · exact h
  · rfl

theorem scan_fst_isSome (ray_pos ray_dir : Vec3) (l : List NpcEntry) :
    ∀ acc, acc.1.isSome = true →
      ((l.foldl (closestStep ray_pos ray_dir) acc).1).isSome = true := by
  induction l with
  | nil => intro acc h; exact h
  | cons x xs ih =>
    intro acc h
    rw [List.foldl_cons]
    exact ih _ (closestStep_fst_isSome ray_pos ray_dir acc x h)

theorem scan_isSome_of_eligible (ray_pos ray_dir : Vec3) (l : List NpcEntry) :
    ∀ acc, (acc.1 = none → acc.2 = F32_MAX ^ 2) →
      (∃ e ∈ l, eligible ray_pos ray_dir e = true) →
      ((l.foldl (closestStep ray_pos ray_dir) acc).1).isSome = true := by
  induction l with
  | nil =>
    intro acc _ hex
    obtain ⟨e, he, _⟩ := hex
    cases he
  | cons x xs ih =>
    intro acc hinv hex
    obtain ⟨e, hmem, helig⟩ := hex
    rw [List.foldl_cons]
    rcases List.mem_cons.mp hmem with heq | hmem2
    · subst heq
      cases hsome : acc.1 with
      | some q =>
        exact scan_fst_isSome ray_pos ray_dir xs _
          (closestStep_fst_isSome ray_pos ray_dir acc e (by rw [hsome]; rfl))
      | none =>
        have hmax := hinv hsome
        have hc : forwardCone ray_dir (e.pos.sub ray_pos) = true := by
          have := helig; simp [eligible] at this; exact this.1
        have hd : (e.pos.sub ray_pos).lengthSq < INTERACTION_DISTANCE ^ 2 := by
          have := helig; simp [eligible] at this; exact this.2
        have hlt : (e.pos.sub ray_pos).lengthSq < acc.2 := by
          rw [hmax]
          refine lt_of_lt_of_le hd ?_
          norm_num [INTERACTION_DISTANCE, F32_MAX]
        have hstep : closestStep ray_pos ray_dir acc e =
            (some (e.entity, e.npc), (e.pos.sub ray_pos).lengthSq) := by
          simp [closestStep, hc, hd, hlt]
        rw [hstep]
        exact scan_fst_isSome ray_pos ray_dir xs _ rfl
    · rcases closestStep_eq_or ray_pos ray_dir acc x with hstep | ⟨_, _, hstep⟩
      · rw [hstep]
        exact ih acc hinv ⟨e, hmem2, helig⟩
      · rw [hstep]
        exact ih _ (fun hn => Option.noConfusion hn) ⟨e, hmem2, helig⟩

theorem closest_npc_none_iff (ray_pos ray_dir : Vec3) (l : List NpcEntry) :
    closest_npc ray_pos ray_dir l = none ↔
      ∀ e ∈ l, eligible ray_pos ray_dir e = false := by
  constructor
  · intro h e hmem
    cases helig : eligible ray_pos ray_dir e with
    | false => rfl
    | true =>
      have := scan_isSome_of_eligible ray_pos ray_dir l (none, F32_MAX ^ 2)
        (fun _ => rfl) ⟨e, hmem, helig⟩
      unfold closest_npc closestScan at h
      rw [h] at this
      cases this
  · intro h
    unfold closest_npc closestScan
    rw [scan_eq_of_no_eligible ray_pos ray_dir l _ h]

theorem closest_npc_some (ray_pos ray_dir : Vec3) (l : List NpcEntry)
    (q : ℕ × Npc) (h : closest_npc ray_pos ray_dir l = some q) :
    ∃ e ∈ l, q = (e.entity, e.npc) ∧ eligible ray_pos ray_dir e = true ∧
      ∀ e2 ∈ l, eligible ray_pos ray_dir e2 = true →
        (e.pos.sub ray_pos).lengthSq ≤ (e2.pos.sub ray_pos).lengthSq := by
  rcases scan_source ray_pos ray_dir l (none, F32_MAX ^ 2) with heq | ⟨e, hmem, helig, heq⟩
  · unfold closest_npc closestScan at h
    rw [heq] at h
    cases h
  · refine ⟨e, hmem, ?_, helig, ?_⟩
    · unfold closest_npc closestScan at h
      rw [heq] at h
      injection h with h
      exact h.symm
    · intro e2 hmem2 helig2
      have hmin := scan_snd_min ray_pos ray_dir l (none, F32_MAX ^ 2) e2 hmem2 helig2
      rw [heq] at hmin
      exact hmin

theorem default_all_valid :
    DialogueDatabase.default.dialogues.all (fun p => p.2.valid) = true := by
  decide

theorem default_all_reply_not_sentinel :
    DialogueDatabase.default.dialogues.all
      (fun p => p.2.replyTargetsNotSentinel) = true := by
  decide

theorem default_no_exit_node_all :
    DialogueDatabase.default.dialogues.all
      (fun p => !(p.2.hasNode "exit")) = true := by
  decide

theorem default_reply_target_ne_sentinel {key nid text target : String}
    {tree : DialogueTree} {node : DialogueNode}
    (htree : DialogueDatabase.default.dialogues.lookup key = some tree)
    (hnode : tree.nodes.lookup nid = some node)
    (hopt : DialogueOption.Reply text target ∈ node.options) :
    target ≠ "exit" := by
  have hall := default_all_reply_not_sentinel
  rw [List.all_eq_true] at hall
  have h2 : tree.replyTargetsNotSentinel = true := by
    simpa using hall _ (lookup_mem htree)
  unfold DialogueTree.replyTargetsNotSentinel at h2
  rw [List.all_eq_true] at h2
  have h3 : node.options.all (fun o =>
      match o with
      | DialogueOption.Reply _ target_node => !(target_node == "exit")
      | DialogueOption.Exit _ => true) = true := by
    simpa using h2 _ (lookup_mem hnode)
  rw [List.all_eq_true] at h3
  have h4 := h3 _ hopt
  simpa using h4

theorem default_no_exit_node {key : String} {tree : DialogueTree}
    (htree : DialogueDatabase.default.dialogues.lookup key = some tree) :
    tree.hasNode "exit" = false := by
  have hall := default_no_exit_node_all
  rw [List.all_eq_true] at hall
  simpa using hall _ (lookup_mem htree)

theorem step_preserves_ModeInv (db : DialogueDatabase) (w : GameWorld)
    (op : Op) (h : ModeInv w) : ModeInv (step db w op) := by
  obtain ⟨h1, h2⟩ := h
  cases op with
  | interact ray_pos ray_dir l =>
    by_cases hm : w.mode = GameState.Playing
    · have hact : w.active = [] := h1 hm
      simp only [step]
      rw [if_pos hm]
      rcases hc : closest_npc ray_pos ray_dir l with _ | ⟨ent, npc⟩
      · rw [player_interaction_none db ray_pos ray_dir l w hc]
        exact ⟨h1, h2⟩
      · rcases ht : db.dialogues.lookup npc.dialogue_id with _ | tree
        · rw [player_interaction_missing_tree db ray_pos ray_dir l w ent npc hc ht]
          exact ⟨h1, h2⟩
        · rw [player_interaction_starts db ray_pos ray_dir l w ent npc tree hc ht]
          refine ⟨fun hco => GameState.noConfusion hco, ?_⟩
          simp [hact]
    · simp only [step]
      rw [if_neg hm]
      exact ⟨h1, h2⟩
  | click opt =>
    by_cases hm : w.mode = GameState.InDialogue
    · simp only [step]
      rw [if_pos hm]
      rcases hact : w.active with _ | ⟨ad, rest⟩
      · rw [handle_dialogue_click_not_single db opt w
          (fun x hco => by rw [hact] at hco; exact List.noConfusion hco)]
        exact ⟨h1, h2⟩
      · rcases rest with _ | ⟨b, rest2⟩
        · by_cases he : opt.target_node = "exit"
          · rw [handle_dialogue_click_exit db opt w ad hact he]
            exact ⟨fun _ => rfl, by simp⟩
          · have hc := handle_dialogue_click_continue db opt w ad hact he
            constructor
            · intro hmp
              rw [hc.2.1, hm] at hmp
              exact GameState.noConfusion hmp
            · rw [hc.1]
              simp
        · rw [hact] at h2
          simp at h2
    · simp only [step]
      rw [if_neg hm]
      exact ⟨h1, h2⟩
  | cancel =>
    by_cases hm : w.mode = GameState.InDialogue
    · simp only [step]
      rw [if_pos hm]
      rcases hact : w.active with _ | ⟨ad, rest⟩
      · rw [handle_dialogue_cancel_not_single w
          (fun x hco => by rw [hact] at hco; exact List.noConfusion hco)]
        exact ⟨h1, h2⟩
      · rcases rest with _ | ⟨b, rest2⟩
        · rw [handle_dialogue_cancel_active w ad hact]
          exact ⟨fun _ => rfl, by simp⟩
        · rw [hact] at h2
          simp at h2
    · simp only [step]
      rw [if_neg hm]
      exact ⟨h1, h2⟩
  | mouse deltas => exact ⟨h1, h2⟩

theorem foldl_preserves_ModeInv (db : DialogueDatabase) (ops : List Op) :
    ∀ w, ModeInv w → ModeInv (ops.foldl (step db) w) := by
  induction ops with
  | nil => intro w h; exact h
  | cons o os ih =>
    intro w h
    rw [List.foldl_cons]
    exact ih _ (step_preserves_ModeInv db w o h)

theorem step_click_eq (db : DialogueDatabase) (w : GameWorld)
    (opt : DialogueOptionButton) (hm : w.mode = GameState.InDialogue) :
    step db w (Op.click opt) = handle_dialogue_click db opt w := by
  simp only [step]
  rw [if_pos hm]

theorem step_cancel_eq (db : DialogueDatabase) (w : GameWorld)
    (hm : w.mode = GameState.InDialogue) :
    step db w Op.cancel = handle_dialogue_cancel w := by
  simp only [step]
  rw [if_pos hm]

theorem step_interact_eq (db : DialogueDatabase) (w : GameWorld)
    (ray_pos ray_dir : Vec3) (l : List NpcEntry)
    (hm : w.mode = GameState.Playing) :
    step db w (Op.interact ray_pos ray_dir l) =
      player_interaction db ray_pos ray_dir l w := by
  simp only [step]
  rw [if_pos hm]

theorem step_mouse_fields (db : DialogueDatabase) (deltas : List Vec2)
    (w : GameWorld) :
    (step db w (Op.mouse deltas)).mode = w.mode ∧
    (step db w (Op.mouse deltas)).active = w.active ∧
    (step db w (Op.mouse deltas)).look_rotation = w.look_rotation :=
  ⟨rfl, rfl, rfl⟩

theorem step_cancel_look (db : DialogueDatabase) (w : GameWorld)
    (ad : ActiveDialogue) (hm : w.mode = GameState.InDialogue)
    (hact : w.active = [ad]) :
    (step db w Op.cancel).look = w.look_rotation := by
  rw [step_cancel_eq db w hm, handle_dialogue_cancel_active w ad hact]

theorem step_click_exit_look (db : DialogueDatabase) (w : GameWorld)
    (ad : ActiveDialogue) (i : ℕ) (hm : w.mode = GameState.InDialogue)
    (hact : w.active = [ad]) :
    (step db w (Op.click ⟨"exit", i⟩)).look = w.look_rotation := by
  rw [step_click_eq db w _ hm,
    handle_dialogue_click_exit db ⟨"exit", i⟩ w ad hact rfl]

theorem sample_scan_miss :
    closest_npc ⟨0, 0, 0⟩ ⟨0, 0, 1⟩ [⟨⟨0, 0, 6⟩, 7, sampleNpc⟩] = none := by
  norm_num [closest_npc, closestScan, closestStep, forwardCone, Vec3.dot,
    Vec3.sub, Vec3.lengthSq, INTERACTION_DISTANCE, F32_MAX]

theorem sample_scan_hit :
    closest_npc ⟨0, 0, 0⟩ ⟨0, 0, 1⟩ [⟨⟨0, 0, 3⟩, 7, sampleNpc⟩] =
      some (7, sampleNpc) := by
  norm_num [closest_npc, closestScan, closestStep, forwardCone, Vec3.dot,
    Vec3.sub, Vec3.lengthSq, INTERACTION_DISTANCE, F32_MAX]

theorem sample_scan_boundary :
    closest_npc ⟨0, 0, 0⟩ ⟨0, 0, 1⟩ [⟨⟨0, 0, 5⟩, 7, sampleNpc⟩] = none := by
  norm_num [closest_npc, closestScan, closestStep, forwardCone, Vec3.dot,
    Vec3.sub, Vec3.lengthSq, INTERACTION_DISTANCE, F32_MAX]

/-- C1: for every active conversation at a node and every choice of
that node in the shipped database, selecting a Terminate (`Exit`) choice
destroys the `ActiveDialogue` and returns the mode to `Playing`
(Exploring), while selecting a Continue (`Reply`) choice keeps the mode at
`InDialogue` (Conversing) and replaces the current node-id with the
target node-id of the choice. -/
theorem dialogue_select_terminate_or_continue (w : GameWorld)
    (ad : ActiveDialogue) (npc : Npc) (tree : DialogueTree)
    (node : DialogueNode) (opt : DialogueOption) (i : ℕ)
    (hmode : w.mode = GameState.InDialogue)
    (hact : w.active = [ad])
    (hnpc : w.npcs.lookup ad.npc_entity = some npc)
    (htree : DialogueDatabase.default.dialogues.lookup npc.dialogue_id = some tree)
    (hnode : tree.nodes.lookup ad.current_node = some node)
    (hopt : opt ∈ node.options) :
    (∀ text, opt = DialogueOption.Exit text →
      (step DialogueDatabase.default w (Op.click (dialogueOptionButton opt i))).active = [] ∧
      (step DialogueDatabase.default w (Op.click (dialogueOptionButton opt i))).mode = GameState.Playing) ∧
    (∀ text target, opt = DialogueOption.Reply text target →
      (step DialogueDatabase.default w (Op.click (dialogueOptionButton opt i))).mode = GameState.InDialogue ∧
      (step DialogueDatabase.default w (Op.click (dialogueOptionButton opt i))).active = [⟨ad.npc_entity, target⟩]) := by
  constructor
  · intro text hopt_eq
    subst hopt_eq
    rw [step_click_eq _ _ _ hmode,
      handle_dialogue_click_exit DialogueDatabase.default _ w ad hact rfl]
    exact ⟨rfl, rfl⟩
  · intro text target hopt_eq
    subst hopt_eq
    have hne : target ≠ "exit" := default_reply_target_ne_sentinel htree hnode hopt
    rw [step_click_eq _ _ _ hmode]
    have hc := handle_dialogue_click_continue DialogueDatabase.default
      (dialogueOptionButton (DialogueOption.Reply text target) i) w ad hact hne
    exact ⟨hc.2.1.trans hmode, hc.1⟩

/-- C1 witness: at the `"basic"` root node, the `Exit "Goodbye."`
choice (index 2) destroys the conversation and returns to `Playing`. -/
theorem dialogue_select_terminate_or_continue_witness :
    (step DialogueDatabase.default sampleWorldInDialogue
      (Op.click (dialogueOptionButton (DialogueOption.Exit "Goodbye.") 2))).active = [] ∧
    (step DialogueDatabase.default sampleWorldInDialogue
      (Op.click (dialogueOptionButton (DialogueOption.Exit "Goodbye.") 2))).mode = GameState.Playing :=
  (dialogue_select_terminate_or_continue sampleWorldInDialogue ⟨7, "start"⟩
    sampleNpc basicTree basicStartNode (DialogueOption.Exit "Goodbye.") 2
    rfl rfl rfl rfl rfl (by decide)).1 "Goodbye." rfl

/-- C2 (amended): a partner is rejected exactly when its normalized dot
product with the unit facing direction is ≤ 0.7 *or its distance is at
least 5* (the radius check `distance < INTERACTION_DISTANCE` is
strict, so a partner at exactly 5 units is also rejected, which the
original "exceeds" wording excludes); among the survivors one of minimum
distance is selected, and if no candidate survives the trigger leaves the
world unchanged. -/
theorem interaction_trigger_selects_closest (ray_pos ray_dir : Vec3)
    (l : List NpcEntry) (db : DialogueDatabase) (w : GameWorld) :
    (closest_npc ray_pos ray_dir l = none ↔
      ∀ e ∈ l, eligible ray_pos ray_dir e = false) ∧
    (∀ q, closest_npc ray_pos ray_dir l = some q →
      ∃ e ∈ l, q = (e.entity, e.npc) ∧ eligible ray_pos ray_dir e = true ∧
        ∀ e2 ∈ l, eligible ray_pos ray_dir e2 = true →
          (e.pos.sub ray_pos).lengthSq ≤ (e2.pos.sub ray_pos).lengthSq) ∧
    (closest_npc ray_pos ray_dir l = none →
      step db w (Op.interact ray_pos ray_dir l) = w) := by
  refine ⟨closest_npc_none_iff ray_pos ray_dir l,
    fun q h => closest_npc_some ray_pos ray_dir l q h, fun h => ?_⟩
  by_cases hm : w.mode = GameState.Playing
  · rw [step_interact_eq db w ray_pos ray_dir l hm]
    exact player_interaction_none db ray_pos ray_dir l w h
  · simp only [step]
    rw [if_neg hm]

/-- C2 witness: the scenario of the spec — a partner at distance 6,
directly ahead, survives nothing, and the trigger is a no-op. -/
theorem interaction_trigger_selects_closest_witness :
    step DialogueDatabase.default sampleWorldPlaying
      (Op.interact ⟨0, 0, 0⟩ ⟨0, 0, 1⟩ [⟨⟨0, 0, 6⟩, 7, sampleNpc⟩]) =
      sampleWorldPlaying :=
  (interaction_trigger_selects_closest ⟨0, 0, 0⟩ ⟨0, 0, 1⟩
    [⟨⟨0, 0, 6⟩, 7, sampleNpc⟩] DialogueDatabase.default
    sampleWorldPlaying).2.2 sample_scan_miss

/-- C2 counterexample to the claim as stated: a partner directly ahead
(normalized dot product 1 > 0.7) at distance exactly 5 does not "exceed"
the radius, so the claim says it survives and, being the only candidate,
starts a conversation; the code rejects it (`distance < 5.0` is strict) and
the trigger is a no-op. -/
theorem interaction_radius_boundary :
    specSurvives ⟨0, 0, 0⟩ ⟨0, 0, 1⟩ ⟨⟨0, 0, 5⟩, 7, sampleNpc⟩ = true ∧
    eligible ⟨0, 0, 0⟩ ⟨0, 0, 1⟩ ⟨⟨0, 0, 5⟩, 7, sampleNpc⟩ = false ∧
    closest_npc ⟨0, 0, 0⟩ ⟨0, 0, 1⟩ [⟨⟨0, 0, 5⟩, 7, sampleNpc⟩] = none ∧
    step DialogueDatabase.default sampleWorldPlaying
      (Op.interact ⟨0, 0, 0⟩ ⟨0, 0, 1⟩ [⟨⟨0, 0, 5⟩, 7, sampleNpc⟩]) =
      sampleWorldPlaying := by
  refine ⟨?_, ?_, sample_scan_boundary, ?_⟩
  · norm_num [specSurvives, forwardCone, Vec3.dot, Vec3.sub, Vec3.lengthSq,
      INTERACTION_DISTANCE]
  · norm_num [eligible, forwardCone, Vec3.dot, Vec3.sub, Vec3.lengthSq,
      INTERACTION_DISTANCE]
  · rw [step_interact_eq DialogueDatabase.default sampleWorldPlaying _ _ _ rfl]
    exact player_interaction_none _ _ _ _ _ sample_scan_boundary

/-- C3: starting from the initial world, every sequence of
trigger/select/cancel (and mouse) steps leaves at most one `ActiveDialogue`
in existence. -/
theorem at_most_one_active_dialogue (db : DialogueDatabase)
    (npcs : List (ℕ × Npc)) (ops : List Op) :
    ((ops.foldl (step db) (initialWorld npcs)).active).length ≤ 1 :=
  (foldl_preserves_ModeInv db ops (initialWorld npcs)
    ⟨fun _ => rfl, Nat.zero_le 1⟩).2

/-- C4 (amended): when the target node-id of a selected Continue
choice is missing from the partner graph (and is not the `"exit"` sentinel), the
code reports the data-integrity error but does *not* force-terminate: the
`ActiveDialogue` survives with its current node replaced by the missing
target-id, and the mode stays `InDialogue` (the component update is queued
before the node lookup, and the early return skips only the UI rebuild). -/
theorem missing_target_error_no_terminate (db : DialogueDatabase)
    (w : GameWorld) (ad : ActiveDialogue) (npc : Npc) (tree : DialogueTree)
    (t : String) (i : ℕ)
    (hmode : w.mode = GameState.InDialogue)
    (hact : w.active = [ad])
    (hnpc : w.npcs.lookup ad.npc_entity = some npc)
    (htree : db.dialogues.lookup npc.dialogue_id = some tree)
    (hmiss : tree.nodes.lookup t = none)
    (hne : t ≠ "exit") :
    (step db w (Op.click ⟨t, i⟩)).mode = GameState.InDialogue ∧
    (step db w (Op.click ⟨t, i⟩)).active = [⟨ad.npc_entity, t⟩] ∧
    (step db w (Op.click ⟨t, i⟩)).log =
      w.log ++ ["Error: No node found with id: " ++ t] := by
  rw [step_click_eq db w _ hmode]
  simp only [handle_dialogue_click, hact]
  rw [if_neg hne]
  simp only [hnpc, htree, hmiss]
  exact ⟨hmode, trivial, trivial⟩

/-- C4 counterexample to the claim as stated: with the conversation at
the `"basic"` root, selecting a Continue choice targeting the nonexistent
node `"missing"` leaves the mode at `InDialogue` and the `ActiveDialogue`
alive (now pointing at `"missing"`), where the claim demands a return to
`NoConversation` and Exploring. -/
theorem missing_target_claim_counterexample :
    (step DialogueDatabase.default sampleWorldInDialogue
      (Op.click (dialogueOptionButton (DialogueOption.Reply "Broken" "missing") 0))).mode =
      GameState.InDialogue ∧
    (step DialogueDatabase.default sampleWorldInDialogue
      (Op.click (dialogueOptionButton (DialogueOption.Reply "Broken" "missing") 0))).active =
      [⟨7, "missing"⟩] :=
  ⟨rfl, rfl⟩

/-- C4 witness for the amended claim, at the concrete input of the
counterexample (the error is also logged). -/
theorem missing_target_error_no_terminate_witness :
    (step DialogueDatabase.default sampleWorldInDialogue
      (Op.click ⟨"missing", 0⟩)).mode = GameState.InDialogue ∧
    (step DialogueDatabase.default sampleWorldInDialogue
      (Op.click ⟨"missing", 0⟩)).active = [⟨7, "missing"⟩] ∧
    (step DialogueDatabase.default sampleWorldInDialogue
      (Op.click ⟨"missing", 0⟩)).log =
      sampleWorldInDialogue.log ++ ["Error: No node found with id: " ++ "missing"] :=
  missing_target_error_no_terminate DialogueDatabase.default
    sampleWorldInDialogue ⟨7, "start"⟩ sampleNpc basicTree "missing" 0
    rfl rfl rfl rfl rfl (by decide)

/-- C5: the camera look orientation is snapshotted verbatim on the
`Playing → InDialogue` transition, and the `InDialogue → Playing`
transition (by cancel or by an Exit click) restores exactly that snapshot,
for every sequence of mouse-look events processed while in dialogue —
including the empty one. -/
theorem camera_look_roundtrip (db : DialogueDatabase) (w : GameWorld)
    (ray_pos ray_dir : Vec3) (l : List NpcEntry) (ent : ℕ) (npc : Npc)
    (tree : DialogueTree) (deltas : List Vec2) (i : ℕ)
    (hmode : w.mode = GameState.Playing)
    (hact : w.active = [])
    (hfound : closest_npc ray_pos ray_dir l = some (ent, npc))
    (htree : db.dialogues.lookup npc.dialogue_id = some tree) :
    (step db w (Op.interact ray_pos ray_dir l)).look_rotation = w.look ∧
    (step db (step db (step db w (Op.interact ray_pos ray_dir l))
      (Op.mouse deltas)) Op.cancel).look = w.look ∧
    (step db (step db (step db w (Op.interact ray_pos ray_dir l))
      (Op.mouse deltas)) (Op.click ⟨"exit", i⟩)).look = w.look := by
  have h1 : step db w (Op.interact ray_pos ray_dir l) =
      { w with
        log := w.log ++ ["Starting dialogue with NPC: " ++ npc.name]
        active := w.active ++ [⟨ent, tree.root_node⟩]
        mode := GameState.InDialogue
        look_rotation := w.look } := by
    rw [step_interact_eq db w ray_pos ray_dir l hmode]
    exact player_interaction_starts db ray_pos ray_dir l w ent npc tree hfound htree
  have hmode1 : (step db w (Op.interact ray_pos ray_dir l)).mode =
      GameState.InDialogue := by rw [h1]
  have hact1 : (step db w (Op.interact ray_pos ray_dir l)).active =
      [⟨ent, tree.root_node⟩] := by rw [h1]; simp [hact]
  have hrot1 : (step db w (Op.interact ray_pos ray_dir l)).look_rotation =
      w.look := by rw [h1]
  have hm2 := step_mouse_fields db deltas (step db w (Op.interact ray_pos ray_dir l))
  refine ⟨hrot1, ?_, ?_⟩
  · exact (step_cancel_look db _ ⟨ent, tree.root_node⟩
      (hm2.1.trans hmode1) (hm2.2.1.trans hact1)).trans
      ((hm2.2.2).trans hrot1)
  · exact (step_click_exit_look db _ ⟨ent, tree.root_node⟩ i
      (hm2.1.trans hmode1) (hm2.2.1.trans hact1)).trans
      ((hm2.2.2).trans hrot1)

/-- C5 witness: starting from look orientation `(5, -3)`, entering
dialogue with the NPC 3 units ahead, moving the mouse by `(1, 2)`, and
cancelling restores exactly `(5, -3)`. -/
theorem camera_look_roundtrip_witness :
    (step DialogueDatabase.default
      (step DialogueDatabase.default
        (step DialogueDatabase.default sampleWorldPlaying
          (Op.interact ⟨0, 0, 0⟩ ⟨0, 0, 1⟩ [⟨⟨0, 0, 3⟩, 7, sampleNpc⟩]))
        (Op.mouse [⟨1, 2⟩])) Op.cancel).look = sampleWorldPlaying.look :=
  (camera_look_roundtrip DialogueDatabase.default sampleWorldPlaying
    ⟨0, 0, 0⟩ ⟨0, 0, 1⟩ [⟨⟨0, 0, 3⟩, 7, sampleNpc⟩] 7 sampleNpc basicTree
    [⟨1, 2⟩] 0 rfl rfl sample_scan_hit rfl).2.1

/-- C6: the statically constructed default `DialogueDatabase` has
exactly the keys `"basic"`, `"guard"`, `"merchant"`, `"scientist"`,
`"mysterious"`, and each tree is structurally valid: its root node-id
resolves, every `Reply` target node-id resolves, and every node has at
least one choice. -/
theorem default_database_structurally_valid :
    DialogueDatabase.default.dialogues.map Prod.fst =
      ["basic", "guard", "merchant", "scientist", "mysterious"] ∧
    DialogueDatabase.default.dialogues.all (fun p => p.2.valid) = true :=
  ⟨by decide, default_all_valid⟩

/-- C7: while a conversation is active at any node, cancel
unconditionally destroys the `ActiveDialogue` and returns the mode to
`Playing`; with no active conversation, cancel changes nothing at all. -/
theorem cancel_destroys_or_noop (db : DialogueDatabase) (w : GameWorld)
    (ad : ActiveDialogue) :
    (w.mode = GameState.InDialogue → w.active = [ad] →
      (step db w Op.cancel).active = [] ∧
      (step db w Op.cancel).mode = GameState.Playing) ∧
    (w.active = [] → step db w Op.cancel = w) := by
  constructor
  · intro hm hact
    rw [step_cancel_eq db w hm, handle_dialogue_cancel_active w ad hact]
    exact ⟨rfl, rfl⟩
  · intro hact
    by_cases hm : w.mode = GameState.InDialogue
    · rw [step_cancel_eq db w hm]
      exact handle_dialogue_cancel_not_single w
        (fun x h => by rw [hact] at h; exact List.noConfusion h)
    · simp only [step]
      rw [if_neg hm]

/-- C7 witness: cancel at the `"basic"` root destroys the conversation
and returns to `Playing`; cancel in a world with no conversation is the
identity. -/
theorem cancel_destroys_or_noop_witness :
    ((step DialogueDatabase.default sampleWorldInDialogue Op.cancel).active = [] ∧
      (step DialogueDatabase.default sampleWorldInDialogue Op.cancel).mode = GameState.Playing) ∧
    step DialogueDatabase.default sampleWorldPlaying Op.cancel = sampleWorldPlaying :=
  ⟨(cancel_destroys_or_noop DialogueDatabase.default sampleWorldInDialogue
      ⟨7, "start"⟩).1 rfl rfl,
    (cancel_destroys_or_noop DialogueDatabase.default sampleWorldPlaying
      ⟨7, "start"⟩).2 rfl⟩

/-- C8: when the trigger selects an eligible partner, a missing
conversation key logs the data-integrity error and starts nothing (mode
stays `Playing`, no `ActiveDialogue`), while a present key creates the
`ActiveDialogue` at the root node of the tree and switches to `InDialogue`. -/
theorem interact_resolves_dialogue_key (db : DialogueDatabase)
    (w : GameWorld) (ray_pos ray_dir : Vec3) (l : List NpcEntry)
    (ent : ℕ) (npc : Npc)
    (hmode : w.mode = GameState.Playing)
    (hact : w.active = [])
    (hfound : closest_npc ray_pos ray_dir l = some (ent, npc)) :
    (db.dialogues.lookup npc.dialogue_id = none →
      (step db w (Op.interact ray_pos ray_dir l)).mode = GameState.Playing ∧
      (step db w (Op.interact ray_pos ray_dir l)).active = [] ∧
      (step db w (Op.interact ray_pos ray_dir l)).log =
        w.log ++ ["Starting dialogue with NPC: " ++ npc.name,
          "Error: No dialogue tree found for id: " ++ npc.dialogue_id]) ∧
    (∀ tree, db.dialogues.lookup npc.dialogue_id = some tree →
      (step db w (Op.interact ray_pos ray_dir l)).mode = GameState.InDialogue ∧
      (step db w (Op.interact ray_pos ray_dir l)).active = [⟨ent, tree.root_node⟩]) := by
  constructor
  · intro ht
    rw [step_interact_eq db w ray_pos ray_dir l hmode,
      player_interaction_missing_tree db ray_pos ray_dir l w ent npc hfound ht]
    refine ⟨hmode, hact, ?_⟩
    simp
  · intro tree ht
    rw [step_interact_eq db w ray_pos ray_dir l hmode,
      player_interaction_starts db ray_pos ray_dir l w ent npc tree hfound ht]
    exact ⟨rfl, by simp [hact]⟩

/-- C8 witness: the partner 3 units ahead carries the key `"basic"`,
which is present, so the conversation starts at the root of that tree. -/
theorem interact_resolves_dialogue_key_witness :
    (step DialogueDatabase.default sampleWorldPlaying
      (Op.interact ⟨0, 0, 0⟩ ⟨0, 0, 1⟩ [⟨⟨0, 0, 3⟩, 7, sampleNpc⟩])).mode =
      GameState.InDialogue ∧
    (step DialogueDatabase.default sampleWorldPlaying
      (Op.interact ⟨0, 0, 0⟩ ⟨0, 0, 1⟩ [⟨⟨0, 0, 3⟩, 7, sampleNpc⟩])).active =
      [⟨7, basicTree.root_node⟩] :=
  (interact_resolves_dialogue_key DialogueDatabase.default sampleWorldPlaying
    ⟨0, 0, 0⟩ ⟨0, 0, 1⟩ [⟨⟨0, 0, 3⟩, 7, sampleNpc⟩] 7 sampleNpc
    rfl rfl sample_scan_hit).2 basicTree rfl

/-- C9: selection decides Terminate versus Continue purely by comparing
the stored target string of the button with the sentinel `"exit"` — the mode
returns to `Playing` iff that string is `"exit"`; consequently a `Reply`
whose target is literally `"exit"` terminates instead of advancing; and no
tree of the shipped default database contains a node with id `"exit"`. -/
theorem exit_sentinel_decides_terminate :
    (∀ (db : DialogueDatabase) (w : GameWorld) (ad : ActiveDialogue)
      (opt : DialogueOptionButton),
      w.mode = GameState.InDialogue → w.active = [ad] →
      ((step db w (Op.click opt)).mode = GameState.Playing ↔
        opt.target_node = "exit")) ∧
    (∀ (db : DialogueDatabase) (w : GameWorld) (ad : ActiveDialogue)
      (text : String) (i : ℕ),
      w.mode = GameState.InDialogue → w.active = [ad] →
      (step db w (Op.click (dialogueOptionButton
        (DialogueOption.Reply text "exit") i))).mode = GameState.Playing ∧
      (step db w (Op.click (dialogueOptionButton
        (DialogueOption.Reply text "exit") i))).active = []) ∧
    DialogueDatabase.default.dialogues.all (fun p => !(p.2.hasNode "exit")) = true := by
  refine ⟨?_, ?_, default_no_exit_node_all⟩
  · intro db w ad opt hm hact
    constructor
    · intro hp
      by_contra hne
      have hc := handle_dialogue_click_continue db opt w ad hact hne
      rw [step_click_eq db w opt hm, hc.2.1, hm] at hp
      exact GameState.noConfusion hp
    · intro he
      rw [step_click_eq db w opt hm,
        handle_dialogue_click_exit db opt w ad hact he]
  · intro db w ad text i hm hact
    rw [step_click_eq db w _ hm,
      handle_dialogue_click_exit db _ w ad hact rfl]
    exact ⟨rfl, rfl⟩

/-- C9 witness: a corrupted `Reply` targeting `"exit"` terminates the
sample conversation. -/
theorem exit_sentinel_decides_terminate_witness :
    (step DialogueDatabase.default sampleWorldInDialogue
      (Op.click (dialogueOptionButton (DialogueOption.Reply "Broken" "exit") 0))).mode =
      GameState.Playing ∧
    (step DialogueDatabase.default sampleWorldInDialogue
      (Op.click (dialogueOptionButton (DialogueOption.Reply "Broken" "exit") 0))).active = [] :=
  exit_sentinel_decides_terminate.2.1 DialogueDatabase.default
    sampleWorldInDialogue ⟨7, "start"⟩ "Broken" 0 rfl rfl

/-- C10: selecting a Continue choice whose target exists replaces only
the current node-id of the `ActiveDialogue`; the partner (`npc_entity`)
field is unchanged. -/
theorem continue_preserves_partner (w : GameWorld) (ad : ActiveDialogue)
    (npc : Npc) (tree : DialogueTree) (node : DialogueNode)
    (text target : String) (i : ℕ)
    (hmode : w.mode = GameState.InDialogue)
    (hact : w.active = [ad])
    (hnpc : w.npcs.lookup ad.npc_entity = some npc)
    (htree : DialogueDatabase.default.dialogues.lookup npc.dialogue_id = some tree)
    (hnode : tree.nodes.lookup ad.current_node = some node)
    (hopt : DialogueOption.Reply text target ∈ node.options)
    (hex : tree.hasNode target = true) :
    (step DialogueDatabase.default w
      (Op.click (dialogueOptionButton (DialogueOption.Reply text target) i))).active =
      [⟨ad.npc_entity, target⟩] := by
  have hne : target ≠ "exit" := by
    intro hcontra
    have hno := default_no_exit_node htree
    rw [hcontra] at hex
    rw [hex] at hno
    cases hno
  rw [step_click_eq _ _ _ hmode]
  exact (handle_dialogue_click_continue DialogueDatabase.default
    (dialogueOptionButton (DialogueOption.Reply text target) i) w ad hact hne).1

/-- C10 witness: from the `"basic"` root, choosing
`Reply "What is this place?" → "place"` (index 1) keeps partner entity 7
and moves the current node to `"place"`. -/
theorem continue_preserves_partner_witness :
    (step DialogueDatabase.default sampleWorldInDialogue
      (Op.click (dialogueOptionButton
        (DialogueOption.Reply "What is this place?" "place") 1))).active =
      [⟨7, "place"⟩] :=
  continue_preserves_partner sampleWorldInDialogue ⟨7, "start"⟩ sampleNpc
    basicTree basicStartNode "What is this place?" "place" 1
    rfl rfl rfl rfl rfl (by decide) rfl

end Paperclips
